import Mathlib

/-!
Shallow embedding of the risk-assessment core of the DVLA licence checker
(`src/services/licence-check.service.ts`): `isLicenceValid` and
`calculateRiskLevel` with all of their rule groups, plus the helper
`findTemporalClusters`.

Embedding conventions:
* Timestamps are epoch milliseconds, modelled as `Int`; the injected `now`
  replaces each `new Date()` read.
* A JavaScript `Date` value that may be invalid (`new Date(badString)` gives
  `Invalid Date`, never an exception, so every `catch` around a `Date`
  constructor in the source is dead code) is `JsDate := Option Int`, where
  `none` is an Invalid Date; comparisons against an Invalid Date are `false`,
  exactly as NaN comparisons are in JavaScript.
* An optional raw date field is `Option JsDate`: the outer `none` models an
  absent/falsy field, `some none` a present but unparseable string, and
  `some (some t)` a string parsing to time `t`.
* Endorsement conviction dates are `Option Int` (absent/falsy or parsed);
  a present-but-unparseable conviction date would reach the JS sort with a
  NaN comparator, whose order is not specified, so that case is outside the
  model.
* `Math.floor` of a division by a positive constant is `Int.ediv`, and
  `Math.round(n / d)` for nonnegative `n` and positive `d` is
  `(2 * n + d).ediv (2 * d)`.
* The two float comparisons (frequency acceleration, behavioral trend) are
  modelled as exact rational comparisons with the exact decimal constants
  3/2 for 1.5 and 13/10 for 1.3, implemented by cross-multiplication of
  fractions with positive denominators (`fracLt`); every instance proved
  here is far from the sub-ulp region where binary floats could disagree
  with exact rationals.
* Factor and recommendation strings are modelled as inductive values carrying
  the same data the source interpolates into the strings.
-/

namespace DVLA

/-- JavaScript `Date` value: `none` models an Invalid Date (NaN time),
`some t` a valid date at epoch milliseconds `t`. -/
abbrev JsDate := Option Int

/-- Milliseconds per day, `24 * 60 * 60 * 1000`. -/
def msPerDay : Int := 86400000

/-- Milliseconds per `365.25`-day year, `365.25 * 24 * 60 * 60 * 1000`. -/
def yearMs : Int := 31557600000

/-- JavaScript `d < t` where `d` may be an Invalid Date (NaN comparisons are false). -/
def jsDateLt (d : JsDate) (t : Int) : Bool :=
  match d with
  | some x => decide (x < t)
  | none => false

/-- JavaScript `t < d` on an optional/possibly-invalid date (false when absent or invalid). -/
def jsAfter (d : Option Int) (t : Int) : Bool :=
  match d with
  | some x => decide (t < x)
  | none => false

/-- JavaScript `a || b` on two optional strings (an absent or empty string falls through). -/
def jsOrStr (a b : Option String) : Option String :=
  match a with
  | some s => if s = "" then b else some s
  | none => b

/-- JavaScript `a || b` on two optional raw date fields (an absent field falls through). -/
def jsOrDate (a b : Option JsDate) : Option JsDate :=
  match a with
  | some x => some x
  | none => b

/-- Membership test `list.includes(o)` where `o` may be `undefined` (never a member). -/
def optMem (o : Option String) (l : List String) : Bool :=
  match o with
  | some s => decide (s ∈ l)
  | none => false

/-- JavaScript `Math.round(n / d)` for nonnegative `n` and positive `d`
(round half up on the exact quotient). -/
def jsRoundDiv (n d : Int) : Int := (2 * n + d).ediv (2 * d)

/-- Exact comparison `n1 / d1 < n2 / d2` of two fractions with positive
denominators, by cross-multiplication. -/
def fracLt (n1 d1 n2 d2 : Int) : Bool := decide (n1 * d2 < n2 * d1)

/-- One DVLA endorsement as read by the service: offence `code`, parsed
`dateOfConviction`, and the endorsement's own `penaltyPoints` (the scoring
code never reads this last field). -/
structure Endorsement where
  code : Option String
  dateOfConviction : Option Int
  penaltyPoints : Nat
deriving DecidableEq

/-- One disqualification; `endDate` is `none` when the field is absent/falsy,
`some none` when present but unparseable, `some (some t)` when it parses. -/
structure Disqualification where
  endDate : Option JsDate
deriving DecidableEq

/-- One licence category/entitlement entry with the fields the service reads. -/
structure Category where
  code : Option String
  categoryCode : Option String
  categoryType : Option String
  provisionalEntitlement : Option Bool
  restrictions : Option (List String)
  expiryDate : Option JsDate
  validToDate : Option JsDate
deriving DecidableEq

/-- The slice of the DVLA response the validity check and risk scoring read.
`expiryDateField` flattens `licenceDetails?.expiryDate`, and `cpcDetails`
flattens `cpcDetails?.expiryDate` (the only CPC field the scoring reads). -/
structure DVLAResponse where
  statusCode : String
  penaltyPoints : Option Nat
  endorsements : Option (List Endorsement)
  disqualifications : Option (List Disqualification)
  restrictions : Option (List Unit)
  categories : Option (List Category)
  entitlement : Option (List Category)
  expiryDateField : Option JsDate
  cpcDetails : Option JsDate
deriving DecidableEq

/-- The driver attributes `calculateRiskLevel` reads from the `Driver` entity
(`dateOfBirth` is a non-nullable column; the others are nullable). -/
structure Driver where
  dateOfBirth : Int
  lastMedicalDate : Option Int
  licenceIssueDate : Option Int
  licenceCategories : Option (List String)
deriving DecidableEq

/-- Risk tier. -/
inductive RiskLevel where
  | low
  | medium
  | high
deriving DecidableEq

/-- The four trailer-entitlement downgrades the source checks for. -/
inductive Downgrade where
  | ceToC
  | c1eToC1
  | deToD
  | d1eToD1
deriving DecidableEq

/-- Risk factor entries, one constructor per `factors.push` site, carrying the
data the source interpolates into the factor string. -/
inductive Factor where
  | invalidLicence
  | highPoints (points : Nat)
  | mediumPoints (points : Nat)
  | lowPoints (points : Nat)
  | timeWeighted (veryRecent recent moderate : Nat)
  | seriousOffence
  | activeDisqualification
  | cpcExpired
  | cpcExpiringSoon
  | medicalOverdue (yearsOverdue : Int)
  | medicalDueSoon (monthsRemaining : Int)
  | noMedicalRecord (age : Int)
  | newDriver (points : Nat)
  | professionalCategories (codes : List (Option String))
  | lostProfessional (codes : List String)
  | categoryDowngrades (ds : List Downgrade)
  | categoryRestrictions (entries : List (String × List String))
  | provisionalProfessional (codes : List String)
  | expiredProfessional (codes : List String)
  | escalatingSeverity (codes : List (Option String))
  | frequencyAcceleration (sixMonths fullYear : Nat)
  | repeatOffences (groupName : String) (count : Nat)
  | temporalCluster (count : Nat) (daySpan : Int)
  | behavioralDeterioration
  | restrictionCount (n : Nat)
deriving DecidableEq

/-- Recommendation entries, one constructor per `recommendations.push` site. -/
inductive Recomm where
  | investigateImmediately
  | additionalTraining
  | monitorClosely
  | multipleVeryRecent
  | escalatingPattern
  | recentOffending
  | enhancedMonitoring
  | immediateActionDisq
  | cpcRenewalNow
  | cpcRenewalSchedule
  | medicalImmediate (age : Int)
  | medicalSchedule (age : Int)
  | medicalStatusUnknown (age : Int)
  | newDriverRisk
  | professionalDriver
  | lostCategoriesAction
  | downgradeReview
  | restrictionCompliance
  | provisionalAction
  | expiredRenewal
  | escalationIntervention
  | frequencyMonitoring
  | repeatIntervention (groupName : String)
  | clusterReview
  | trendTraining
  | verifyRestrictions
deriving DecidableEq

/-- A rule group's contribution: score delta plus the factor and
recommendation entries it appends. -/
structure Contribution where
  score : Nat := 0
  factors : List Factor := []
  recs : List Recomm := []
deriving DecidableEq

/-- Sequencing two contributions: scores add, factor/recommendation lists append. -/
def Contribution.append (a b : Contribution) : Contribution :=
  ⟨a.score + b.score, a.factors ++ b.factors, a.recs ++ b.recs⟩

/-- The engine's output bundle. -/
structure RiskAssessment where
  level : RiskLevel
  score : Nat
  factors : List Factor
  recommendations : List Recomm
deriving DecidableEq

/-- Status codes that make a licence invalid. -/
def invalidStatusCodes : List String := ["REVOKED", "SURRENDERED", "REFUSED", "DISQUALIFIED"]

/-- Whether a disqualification is active: no end date means active; an
unparseable end date compares as NaN, hence NOT active (the source's
`catch` returning `true` is unreachable); a parsed end date is active when
it lies strictly in the future. Both filter sites in the source reduce to
this test. -/
def isActiveDisq (now : Int) (d : Disqualification) : Bool :=
  match d.endDate with
  | none => true
  | some none => false
  | some (some t) => decide (now < t)

/-- Embedding of `isLicenceValid`: expired licence, bad status code, or an
active disqualification make it false. An unparseable expiry string gives an
Invalid Date whose `<` comparison is false, so it does NOT trigger the
expiry rule (the `catch` branch in the source is dead code). -/
def isLicenceValid (rec : DVLAResponse) (now : Int) : Bool :=
  if (match rec.expiryDateField with
      | some jd => jsDateLt jd now
      | none => false) then false
  else if rec.statusCode ∈ invalidStatusCodes then false
  else
    match rec.disqualifications with
    | some l =>
      if 0 < l.length then
        if 0 < (l.filter (isActiveDisq now)).length then false else true
      else true
    | none => true

/-- Group 1: base score for an invalid licence. -/
def invalidC (rec : DVLAResponse) (now : Int) : Contribution :=
  if isLicenceValid rec now then {}
  else ⟨50, [.invalidLicence], [.investigateImmediately]⟩

/-- Group 2: penalty-point tier on the response's top-level point count. -/
def pointsC (rec : DVLAResponse) : Contribution :=
  let p := rec.penaltyPoints.getD 0
  if 9 ≤ p then ⟨30, [.highPoints p], [.additionalTraining]⟩
  else if 6 ≤ p then ⟨15, [.mediumPoints p], [.monitorClosely]⟩
  else if 3 ≤ p then ⟨5, [.lowPoints p], []⟩
  else {}

/-- Per-endorsement time weight: +15 within 6 months (180 days), +10 within
12 months (360 days), +5 within 24 months (720 days), else 0. -/
def endorsementWeight (now : Int) (e : Endorsement) : Nat :=
  if jsAfter e.dateOfConviction (now - 6 * 30 * msPerDay) then 15
  else if jsAfter e.dateOfConviction (now - 12 * 30 * msPerDay) then 10
  else if jsAfter e.dateOfConviction (now - 24 * 30 * msPerDay) then 5
  else 0

/-- Group 3: time-weighted endorsement recency with per-bucket counts. -/
def timeWeightedC (endos : List Endorsement) (now : Int) : Contribution :=
  let very := (endos.filter (fun e => jsAfter e.dateOfConviction (now - 6 * 30 * msPerDay))).length
  let recent := (endos.filter (fun e =>
    !jsAfter e.dateOfConviction (now - 6 * 30 * msPerDay) &&
    jsAfter e.dateOfConviction (now - 12 * 30 * msPerDay))).length
  let moderate := (endos.filter (fun e =>
    !jsAfter e.dateOfConviction (now - 12 * 30 * msPerDay) &&
    jsAfter e.dateOfConviction (now - 24 * 30 * msPerDay))).length
  let tw := (endos.map (endorsementWeight now)).sum
  { score := tw
    factors := if 0 < very + recent + moderate then [.timeWeighted very recent moderate] else []
    recs :=
      if 0 < very + recent + moderate then
        if 2 ≤ very then [.multipleVeryRecent]
        else if 1 ≤ very ∧ 2 ≤ recent + moderate then [.escalatingPattern]
        else if 20 ≤ tw then [.recentOffending]
        else []
      else [] }

/-- The serious-offence code list the scoring actually uses (lines 381-402
of the source), covering DR, DD, IN, LC, UT, CD and MS code families. -/
def seriousOffenceCodes : List String :=
  ["DR10", "DR20", "DR30", "DR40", "DR50", "DR60", "DR70", "DR80",
   "DD40", "DD60", "DD80",
   "IN10", "IN20", "IN30",
   "LC20", "LC30", "LC40", "LC50",
   "UT50",
   "CD40", "CD50", "CD60",
   "MS50", "MS60", "MS70"]

/-- Group 4: flat +35 when any endorsement code is in `seriousOffenceCodes`. -/
def seriousC (endos : List Endorsement) : Contribution :=
  if endos.any (fun e => optMem e.code seriousOffenceCodes) then
    ⟨35, [.seriousOffence], [.enhancedMonitoring]⟩
  else {}

/-- Group 5: flat +40 when any disqualification is currently active. -/
def disqC (rec : DVLAResponse) (now : Int) : Contribution :=
  match rec.disqualifications with
  | some l =>
    if 0 < l.length then
      if 0 < (l.filter (isActiveDisq now)).length then
        ⟨40, [.activeDisqualification], [.immediateActionDisq]⟩
      else {}
    else {}
  | none => {}

/-- Group 6: CPC expiry (+20 expired, +10 expiring within 30 days). -/
def cpcC (rec : DVLAResponse) (now : Int) : Contribution :=
  match rec.cpcDetails with
  | some jd =>
    if jsDateLt jd now then ⟨20, [.cpcExpired], [.cpcRenewalNow]⟩
    else if jsDateLt jd (now + 30 * msPerDay) then ⟨10, [.cpcExpiringSoon], [.cpcRenewalSchedule]⟩
    else {}
  | none => {}

/-- Age-based medical-review rule: required annually from 65, five-yearly
from 45; overdue +25, inside the warning window +10, no record +20. -/
def medicalC (d : Driver) (now : Int) : Contribution :=
  let age : Int := (now - d.dateOfBirth).ediv yearMs
  if 45 ≤ age then
    match d.lastMedicalDate with
    | some lm =>
      let daysSince := (now - lm).ediv msPerDay
      let maxDays : Int := if 65 ≤ age then 365 else 5 * 365
      let warningDays : Int := if 65 ≤ age then 30 else 90
      if maxDays < daysSince then
        ⟨25, [.medicalOverdue (daysSince.ediv 365)], [.medicalImmediate age]⟩
      else if maxDays - warningDays < daysSince then
        ⟨10, [.medicalDueSoon ((maxDays - daysSince).ediv 30)], [.medicalSchedule age]⟩
      else {}
    | none => ⟨20, [.noMedicalRecord age], [.medicalStatusUnknown age]⟩
  else {}

/-- New-driver rule: licence issued less than 730 days ago and response
penalty points at least 6 give +15. -/
def newDriverC (rec : DVLAResponse) (d : Driver) (now : Int) : Contribution :=
  match d.licenceIssueDate with
  | some li =>
    let daysSince := (now - li).ediv msPerDay
    if daysSince < 730 ∧ 6 ≤ rec.penaltyPoints.getD 0 then
      ⟨15, [.newDriver (rec.penaltyPoints.getD 0)], [.newDriverRisk]⟩
    else {}
  | none => {}

/-- Group 7: the age-based block (medical policy, then the new-driver rule);
it runs whenever a driver is supplied, since the entity's `dateOfBirth`
column is non-nullable and a `Date` object is always truthy. -/
def ageC (rec : DVLAResponse) (d : Driver) (now : Int) : Contribution :=
  (medicalC d now).append (newDriverC rec d now)

/-- The professional category code set {C, C1, CE, C1E, D, D1, DE, D1E}. -/
def profCategoryCodes : List String := ["C", "C1", "CE", "C1E", "D", "D1", "DE", "D1E"]

/-- Group 8: +5 baseline when the response holds any professional category;
the `categories` branch accepts `cat.code || cat.categoryCode`, the
`entitlement` branch only `categoryCode`. The factor lists the raw
`categoryCode` fields, as the source does. -/
def professionalBaselineC (rec : DVLAResponse) : Contribution :=
  match rec.categories with
  | some cats =>
    let pcs := cats.filter (fun c => optMem (jsOrStr c.code c.categoryCode) profCategoryCodes)
    if 0 < pcs.length then
      ⟨5, [.professionalCategories (pcs.map (·.categoryCode))], [.professionalDriver]⟩
    else {}
  | none =>
    match rec.entitlement with
    | some ents =>
      let pcs := ents.filter (fun c => optMem c.categoryCode profCategoryCodes)
      if 0 < pcs.length then
        ⟨5, [.professionalCategories (pcs.map (·.categoryCode))], [.professionalDriver]⟩
      else {}
    | none => {}

/-- Professional category codes of a category list, read from `categoryCode` only. -/
def profCatsFrom (cats : List Category) : List String :=
  cats.filterMap (fun c =>
    match c.categoryCode with
    | some s => if s ∈ profCategoryCodes then some s else none
    | none => none)

/-- Currently-held professional categories of the response, built from the
`categoryCode` field only (in both the `categories` and `entitlement` branches). -/
def currentProfessionalCats (rec : DVLAResponse) : List String :=
  match rec.categories with
  | some cats => profCatsFrom cats
  | none =>
    match rec.entitlement with
    | some ents => profCatsFrom ents
    | none => []

/-- The driver's previously-recorded professional categories. -/
def prevProfessionalCats (prev : List String) : List String :=
  prev.filter (fun c => decide (c ∈ profCategoryCodes))

/-- Previously-held professional categories absent from the current set. -/
def lostList (prev cur : List String) : List String :=
  (prevProfessionalCats prev).filter (fun c => decide (c ∉ cur))

/-- Lost-category rule: +30 when any previously-held professional category is
missing from the current record. -/
def lostC (prev cur : List String) : Contribution :=
  if 0 < (lostList prev cur).length then
    ⟨30, [.lostProfessional (lostList prev cur)], [.lostCategoriesAction]⟩
  else {}

/-- The four individually-checked trailer downgrades (CE to C and so on). -/
def downgradeChecks (pp cur : List String) : List Downgrade :=
  (if "CE" ∈ pp ∧ "CE" ∉ cur ∧ "C" ∈ cur then [Downgrade.ceToC] else []) ++
  (if "C1E" ∈ pp ∧ "C1E" ∉ cur ∧ "C1" ∈ cur then [Downgrade.c1eToC1] else []) ++
  (if "DE" ∈ pp ∧ "DE" ∉ cur ∧ "D" ∈ cur then [Downgrade.deToD] else []) ++
  (if "D1E" ∈ pp ∧ "D1E" ∉ cur ∧ "D1" ∈ cur then [Downgrade.d1eToD1] else [])

/-- Trailer-downgrade rule: +20 (single aggregate) when any downgrade is detected. -/
def downgradeC (prev cur : List String) : Contribution :=
  let ds := downgradeChecks (prevProfessionalCats prev) cur
  if 0 < ds.length then ⟨20, [.categoryDowngrades ds], [.downgradeReview]⟩ else {}

/-- Professional categories of a list carrying a non-empty restriction list. -/
def catRestrictionEntries (cats : List Category) : List (String × List String) :=
  cats.filterMap (fun c =>
    match c.categoryCode with
    | some s =>
      if s ∈ profCategoryCodes then
        match c.restrictions with
        | some rs => if 0 < rs.length then some (s, rs) else none
        | none => none
      else none
    | none => none)

/-- Category-restriction rule: +15 when any current professional category is restricted. -/
def catRestrictionsC (rec : DVLAResponse) : Contribution :=
  let entries :=
    match rec.categories with
    | some cats => catRestrictionEntries cats
    | none =>
      match rec.entitlement with
      | some ents => catRestrictionEntries ents
      | none => []
  if 0 < entries.length then
    ⟨15, [.categoryRestrictions entries], [.restrictionCompliance]⟩
  else {}

/-- Professional categories marked provisional (type "Provisional" or flag true). -/
def provisionalList (cats : List Category) : List String :=
  cats.filterMap (fun c =>
    match c.categoryCode with
    | some s =>
      if s ∈ profCategoryCodes ∧ (c.categoryType = some "Provisional" ∨ c.provisionalEntitlement = some true) then
        some s
      else none
    | none => none)

/-- Provisional-professional rule: +25 when any professional category is provisional. -/
def provisionalC (rec : DVLAResponse) : Contribution :=
  let l :=
    match rec.categories with
    | some cats => provisionalList cats
    | none =>
      match rec.entitlement with
      | some ents => provisionalList ents
      | none => []
  if 0 < l.length then ⟨25, [.provisionalProfessional l], [.provisionalAction]⟩ else {}

/-- Professional categories whose own expiry/valid-to date lies in the past. -/
def expiredList (now : Int) (cats : List Category) : List String :=
  cats.filterMap (fun c =>
    match c.categoryCode with
    | some s =>
      if s ∈ profCategoryCodes then
        match jsOrDate c.expiryDate c.validToDate with
        | some jd => if jsDateLt jd now then some s else none
        | none => none
      else none
    | none => none)

/-- Expired-professional rule: +35 when any professional category has expired. -/
def expiredC (rec : DVLAResponse) (now : Int) : Contribution :=
  let l :=
    match rec.categories with
    | some cats => expiredList now cats
    | none =>
      match rec.entitlement with
      | some ents => expiredList now ents
      | none => []
  if 0 < l.length then ⟨35, [.expiredProfessional l], [.expiredRenewal]⟩ else {}

/-- Group 9: category-change block (lost, downgraded, restricted, provisional
and expired professional categories), run when a driver is supplied. -/
def categoryChangeC (rec : DVLAResponse) (d : Driver) (now : Int) : Contribution :=
  let cur := currentProfessionalCats rec
  let lostDown :=
    match d.licenceCategories with
    | some prev => (lostC prev cur).append (downgradeC prev cur)
    | none => {}
  ((lostDown.append (catRestrictionsC rec)).append (provisionalC rec)).append (expiredC rec now)

/-- Severity level 1-4 of an offence code per the source's fixed table
(an absent code is in no list, hence level 1). -/
def getSeverityLevel (code : Option String) : Nat :=
  match code with
  | some c =>
    if c ∈ ["DR10", "DR20", "DR30", "DR40", "DR50", "DR60", "DR70", "DR80",
            "DD40", "DD60", "DD80", "CD40", "CD50", "CD60"] then 4
    else if c ∈ ["CD10", "CD20", "CD30", "IN10", "IN20", "IN30",
                 "LC20", "LC30", "LC40", "LC50", "UT50"] then 3
    else if c ∈ ["SP50", "SP60", "CU80", "CU40"] then 2
    else 1
  | none => 1

/-- Conviction date of an endorsement known to carry one (used after the
truthiness filter). -/
def dateMs (e : Endorsement) : Int := e.dateOfConviction.getD 0

/-- Stable insertion of an endorsement into a date-descending list. -/
def insertByDateDesc (e : Endorsement) : List Endorsement → List Endorsement
  | [] => [e]
  | x :: xs => if dateMs x ≤ dateMs e then e :: x :: xs else x :: insertByDateDesc e xs

/-- Stable sort by conviction date, most recent first (the JS stable sort with
comparator `dateB - dateA`). -/
def sortByDateDesc (l : List Endorsement) : List Endorsement :=
  l.foldr insertByDateDesc []

/-- The pattern block's working list: endorsements with a (truthy) conviction
date, sorted most recent first. -/
def sortedEndorsements (endos : List Endorsement) : List Endorsement :=
  sortByDateDesc (endos.filter (fun e => e.dateOfConviction.isSome))

/-- Pattern 1: escalating severity over the three most recent endorsements;
+25 exactly when severity strictly increases from the oldest to the newest
of the three. The factor lists the codes oldest first, as the source's
`reverse()` does. -/
def escalationC (sorted : List Endorsement) : Contribution :=
  match sorted with
  | e0 :: e1 :: e2 :: _ =>
    if getSeverityLevel e2.code < getSeverityLevel e1.code ∧
       getSeverityLevel e1.code < getSeverityLevel e0.code then
      ⟨25, [.escalatingSeverity [e2.code, e1.code, e0.code]], [.escalationIntervention]⟩
    else {}
  | _ => {}

/-- Pattern 2: frequency acceleration; +20 when the 6-month violation rate
(`six / 6` per month) exceeds 1.5 times the 12-month rate (`(yr / 12) * (3/2)
= (3 * yr) / 24`) and the 12-month rate is nonzero. -/
def frequencyC (endos : List Endorsement) (now : Int) : Contribution :=
  let six := (endos.filter (fun e => jsAfter e.dateOfConviction (now - 6 * 30 * msPerDay))).length
  let yr := (endos.filter (fun e => jsAfter e.dateOfConviction (now - 12 * 30 * msPerDay))).length
  if fracLt (3 * (yr : Int)) 24 (six : Int) 6 && fracLt 0 1 (yr : Int) 12 then
    ⟨20, [.frequencyAcceleration six yr], [.frequencyMonitoring]⟩
  else {}

/-- Human-readable name of a two-letter offence group. -/
def offenceGroupName (g : String) : String :=
  if g = "SP" then "speeding"
  else if g = "DR" then "drink/drug driving"
  else if g = "DD" then "dangerous driving"
  else if g = "CD" then "careless driving"
  else if g = "IN" then "insurance"
  else if g = "LC" then "construction & use"
  else if g = "CU" then "mobile phone/seatbelt"
  else if g = "MS" then "failure to provide information"
  else if g = "UT" then "unauthorized taking"
  else g

/-- Increment the count of key `k` in an insertion-ordered association list. -/
def bumpGroup : List (String × Nat) → String → List (String × Nat)
  | [], k => [(k, 1)]
  | (g, c) :: rest, k =>
    if g = k then (g, c + 1) :: rest else (g, c) :: bumpGroup rest k

/-- Offence counts grouped by two-character code prefix, in first-occurrence
order (JS object string keys enumerate in insertion order). -/
def offenceGroups (endos : List Endorsement) : List (String × Nat) :=
  endos.foldl (fun acc e =>
    match e.code with
    | some c => if c = "" then acc else bumpGroup acc (c.take 2)
    | none => acc) []

/-- Pattern 3: repeat-offender detection; +15 per group with at least 3 incidents. -/
def repeatC (endos : List Endorsement) : Contribution :=
  (offenceGroups endos).foldl (fun acc gc =>
    if 3 ≤ gc.2 then
      acc.append ⟨15, [.repeatOffences (offenceGroupName gc.1) gc.2], [.repeatIntervention (offenceGroupName gc.1)]⟩
    else acc) {}

/-- A temporal cluster: member count and rounded day span. -/
structure Cluster where
  count : Nat
  daySpan : Int
deriving DecidableEq

/-- Fuel-indexed loop body of `findTemporalClusters` (structural recursion on
the fuel, which each call provides as the list length; the scan consumes at
least one element per step, so the fuel never runs out early). Scanning the
date list, each candidate start takes the contiguous run of following dates
within `m` days of it; a run of total size at least 2 is emitted (span
rounded from the start to the run's minimum date) and its members are
skipped, otherwise the scan advances by one. The final element alone never
starts a run (the loop stops at `length - 1`). -/
def findTemporalClustersAux (m : Nat) : Nat → List Int → List Cluster
  | 0, _ => []
  | _ + 1, [] => []
  | _ + 1, [_] => []
  | fuel + 1, s :: b :: rest =>
    let run := (b :: rest).takeWhile (fun d => decide ((s - d).natAbs ≤ m * 86400000))
    if 2 ≤ run.length + 1 then
      ⟨run.length + 1, jsRoundDiv ((s - run.foldl min s).natAbs : Int) msPerDay⟩ ::
        findTemporalClustersAux m fuel ((b :: rest).drop run.length)
    else
      findTemporalClustersAux m fuel (b :: rest)

/-- Embedding of `findTemporalClusters` over a list of conviction dates. -/
def findTemporalClusters (m : Nat) (l : List Int) : List Cluster :=
  findTemporalClustersAux m l.length l

/-- Pattern 4: temporal clustering over the sorted dates with 90-day windows;
each cluster of size at least 2 contributes 10 times its size. -/
def clusterStep (acc : Contribution) (cl : Cluster) : Contribution :=
  if 2 ≤ cl.count then
    acc.append ⟨10 * cl.count, [.temporalCluster cl.count cl.daySpan], [.clusterReview]⟩
  else acc

/-- Pattern-4 contribution over the sorted endorsement list. -/
def clusterC (sorted : List Endorsement) : Contribution :=
  (findTemporalClusters 90 (sorted.map dateMs)).foldl clusterStep {}

/-- Sum of severity levels of a list of endorsements. -/
def severitySum (l : List Endorsement) : Nat :=
  (l.map (fun e => getSeverityLevel e.code)).sum

/-- Pattern 5: behavioral trend; with at least 4 dated endorsements, +15 when
the recent half's mean severity exceeds 1.3 times the older half's. -/
def trendC (sorted : List Endorsement) : Contribution :=
  if 4 ≤ sorted.length then
    let half := sorted.length / 2
    let recent := sorted.take half
    let older := sorted.drop half
    if fracLt (13 * (severitySum older : Int)) (10 * (older.length : Int))
        (severitySum recent : Int) (recent.length : Int) then
      ⟨15, [.behavioralDeterioration], [.trendTraining]⟩
    else {}
  else {}

/-- Group 10: the advanced pattern-detection block, in source order
(escalation, frequency, repeat groups, clustering, trend). -/
def patternC (endos : List Endorsement) (now : Int) : Contribution :=
  let sorted := sortedEndorsements endos
  ((((escalationC sorted).append (frequencyC endos now)).append (repeatC endos)).append
    (clusterC sorted)).append (trendC sorted)

/-- Group 11: flat +10 for a non-empty restrictions list. -/
def restrictionsC (rec : DVLAResponse) : Contribution :=
  match rec.restrictions with
  | some l =>
    if 0 < l.length then ⟨10, [.restrictionCount l.length], [.verifyRestrictions]⟩ else {}
  | none => {}

/-- Tier thresholds: 40 and above is high, 15 to 39 medium, below 15 low. -/
def riskLevelOf (score : Nat) : RiskLevel :=
  if 40 ≤ score then .high
  else if 15 ≤ score then .medium
  else .low

/-- The eleven rule groups of `calculateRiskLevel`, in source evaluation order. -/
def riskContributions (rec : DVLAResponse) (driver : Option Driver) (now : Int) : List Contribution :=
  [invalidC rec now,
   pointsC rec,
   timeWeightedC (rec.endorsements.getD []) now,
   seriousC (rec.endorsements.getD []),
   disqC rec now,
   cpcC rec now,
   (match driver with
    | some d => ageC rec d now
    | none => {}),
   professionalBaselineC rec,
   (match driver with
    | some d => categoryChangeC rec d now
    | none => {}),
   (if 0 < (rec.endorsements.getD []).length then patternC (rec.endorsements.getD []) now else {}),
   restrictionsC rec]

/-- Embedding of `calculateRiskLevel`: accumulate all rule groups in order,
then derive the tier from the total score. -/
def calculateRiskLevel (rec : DVLAResponse) (driver : Option Driver) (now : Int) : RiskAssessment :=
  let total := (riskContributions rec driver now).foldl Contribution.append {}
  { level := riskLevelOf total.score
    score := total.score
    factors := total.factors
    recommendations := total.recs }

/-- The serious-offence set as the specification describes it: drink/drug
driving, dangerous driving and death-by-careless-driving codes only
(this names the spec's wording, to be compared with `seriousOffenceCodes`
from the source). -/
def claimedSeriousCodes : List String :=
  ["DR10", "DR20", "DR30", "DR40", "DR50", "DR60", "DR70", "DR80",
   "DD40", "DD60", "DD80",
   "CD40", "CD50", "CD60"]

/-- The codes the source's serious-offence list contains beyond the
spec-described set: insurance, construction-and-use, unauthorized-taking and
failure-to-provide-information codes. -/
def extraSeriousCodes : List String :=
  ["IN10", "IN20", "IN30", "LC20", "LC30", "LC40", "LC50", "UT50", "MS50", "MS60", "MS70"]

/-- Concrete response with a present but unparseable expiry-date string and an
otherwise clean record. -/
def recC2 : DVLAResponse := ⟨"VALID", none, none, none, none, none, none, some none, none⟩

/-- Driver profile with no stored dates or categories, born at epoch. -/
def drvC3 : Driver := ⟨0, none, none, none⟩

/-- Endorsement 1200 days old, severity-1 speeding code. -/
def e1C3 : Endorsement := ⟨some "SP30", some (-103680000000), 3⟩

/-- Endorsement 1100 days old, severity-2 high-speed code. -/
def e2C3 : Endorsement := ⟨some "SP50", some (-95040000000), 3⟩

/-- Endorsement 1000 days old, severity-3 careless-driving code. -/
def e3C3 : Endorsement := ⟨some "CD10", some (-86400000000), 3⟩

/-- Endorsement 880 days old, severity-4 dangerous-driving code. -/
def e4C3 : Endorsement := ⟨some "DD40", some (-76032000000), 3⟩

/-- The added endorsement: 760 days old, severity-1 code, 9 penalty points. -/
def e0C3 : Endorsement := ⟨some "MS10", some (-65664000000), 9⟩

/-- Record holding the four escalating endorsements (evaluated at `now = 0`). -/
def recBeforeC3 : DVLAResponse :=
  ⟨"VALID", none, some [e1C3, e2C3, e3C3, e4C3], none, none, none, none, none, none⟩

/-- The same record with the 9-point endorsement `e0C3` added. -/
def recAfterC3 : DVLAResponse :=
  { recBeforeC3 with endorsements := some [e1C3, e2C3, e3C3, e4C3, e0C3] }

/-- Record whose only endorsement carries the insurance code IN10 (2-year-old
conviction, clean record otherwise). -/
def recC4 : DVLAResponse :=
  ⟨"VALID", none, some [⟨some "IN10", some (-69120000000), 6⟩], none, none, none, none, none, none⟩

/-- Endorsements with convictions at day 0, day 10 and day 200 (in epoch
milliseconds), the clustering example of the specification. -/
def endosC5 : List Endorsement :=
  [⟨some "SP30", some 0, 3⟩, ⟨some "SP30", some 864000000, 3⟩, ⟨some "SP30", some 17280000000, 3⟩]

/-- Three endorsements whose severities read 1, 2, 4 from oldest to newest. -/
def endosUpC6 : List Endorsement :=
  [⟨some "SP30", some 100, 3⟩, ⟨some "SP50", some 200, 3⟩, ⟨some "DR10", some 300, 3⟩]

/-- Three endorsements whose severities read 4, 2, 1 from oldest to newest. -/
def endosDownC6 : List Endorsement :=
  [⟨some "DR10", some 100, 3⟩, ⟨some "SP50", some 200, 3⟩, ⟨some "SP30", some 300, 3⟩]

/-- Record with 6 penalty points and nothing else. -/
def recC7 : DVLAResponse := ⟨"VALID", some 6, none, none, none, none, none, none, none⟩

/-- Driver whose licence was issued at `now` (0 days ago). -/
def drvC7 : Driver := ⟨0, none, some 0, none⟩

/-- Record matching every condition of the benign-record claim (empty
collections, future expiry, valid status) but carrying 9 top-level penalty
points and an expired CPC. -/
def recC8 : DVLAResponse :=
  ⟨"VALID", some 9, none, none, none, none, none, some (some 10000000000000), some (some (-1))⟩

/-- Driver aged 70 at `now = 0` with no medical-review date on record. -/
def drvC8 : Driver := ⟨-2209032000000, none, none, none⟩

/-- Fully benign record: future expiry and nothing else. -/
def recC8w : DVLAResponse := ⟨"VALID", none, none, none, none, none, none, some (some 1), none⟩

/-- Category entry holding `categoryCode` C only (no legacy `code`). -/
def catC9 : Category := ⟨none, some "C", none, none, none, none, none⟩

/-- Record currently holding professional category C but not CE. -/
def recC9 : DVLAResponse := ⟨"VALID", none, none, none, none, some [catC9], none, none, none⟩

/-- Driver previously recorded with categories CE and C. -/
def drvC9 : Driver := ⟨0, none, none, some ["CE", "C"]⟩

/-- Category entry carrying the professional code C only under the legacy
`code` field, with no `categoryCode`. -/
def catC10 : Category := ⟨some "C", none, none, none, none, none, none⟩

/-- Record whose only category entry is the code-only `catC10`. -/
def recC10 : DVLAResponse := ⟨"VALID", none, none, none, none, some [catC10], none, none, none⟩

/-- Driver previously recorded as holding category C. -/
def drvC10 : Driver := ⟨0, none, none, some ["C"]⟩

@[simp] theorem Contribution.score_append (a b : Contribution) :
    (a.append b).score = a.score + b.score := rfl

@[simp] theorem Contribution.factors_append (a b : Contribution) :
    (a.append b).factors = a.factors ++ b.factors := rfl

@[simp] theorem Contribution.recs_append (a b : Contribution) :
    (a.append b).recs = a.recs ++ b.recs := rfl

@[simp] theorem Contribution.score_empty : ({} : Contribution).score = 0 := rfl

@[simp] theorem Contribution.factors_empty : ({} : Contribution).factors = [] := rfl

@[simp] theorem Contribution.recs_empty : ({} : Contribution).recs = [] := rfl

theorem invalidC_set_endos (rec : DVLAResponse) (x : Option (List Endorsement)) (now : Int) :
    invalidC { rec with endorsements := x } now = invalidC rec now := rfl

theorem pointsC_set_endos (rec : DVLAResponse) (x : Option (List Endorsement)) :
    pointsC { rec with endorsements := x } = pointsC rec := rfl

theorem disqC_set_endos (rec : DVLAResponse) (x : Option (List Endorsement)) (now : Int) :
    disqC { rec with endorsements := x } now = disqC rec now := rfl

theorem cpcC_set_endos (rec : DVLAResponse) (x : Option (List Endorsement)) (now : Int) :
    cpcC { rec with endorsements := x } now = cpcC rec now := rfl

theorem ageC_set_endos (rec : DVLAResponse) (x : Option (List Endorsement)) (d : Driver) (now : Int) :
    ageC { rec with endorsements := x } d now = ageC rec d now := rfl

theorem professionalBaselineC_set_endos (rec : DVLAResponse) (x : Option (List Endorsement)) :
    professionalBaselineC { rec with endorsements := x } = professionalBaselineC rec := rfl

theorem categoryChangeC_set_endos (rec : DVLAResponse) (x : Option (List Endorsement)) (d : Driver) (now : Int) :
    categoryChangeC { rec with endorsements := x } d now = categoryChangeC rec d now := rfl

theorem restrictionsC_set_endos (rec : DVLAResponse) (x : Option (List Endorsement)) :
    restrictionsC { rec with endorsements := x } = restrictionsC rec := rfl

theorem timeWeightedC_nil (now : Int) : timeWeightedC [] now = {} := rfl

theorem seriousC_nil : seriousC [] = {} := rfl

theorem calculateRiskLevel_score (rec : DVLAResponse) (driver : Option Driver) (now : Int) :
    (calculateRiskLevel rec driver now).score =
      ((riskContributions rec driver now).foldl Contribution.append {}).score := rfl

/-- C1: the tier returned by calculateRiskLevel is the pure threshold function
of its final score, with high exactly at scores of 40 and above, medium on 15
to 39, low below 15, and the boundary values 14, 15, 39, 40 mapping to low,
medium, medium and high. -/
theorem riskLevel_pure_function_of_score :
    (∀ (rec : DVLAResponse) (driver : Option Driver) (now : Int),
      (calculateRiskLevel rec driver now).level = riskLevelOf (calculateRiskLevel rec driver now).score) ∧
    (∀ s : Nat,
      (riskLevelOf s = RiskLevel.high ↔ 40 ≤ s) ∧
      (riskLevelOf s = RiskLevel.medium ↔ 15 ≤ s ∧ s < 40) ∧
      (riskLevelOf s = RiskLevel.low ↔ s < 15)) ∧
    riskLevelOf 14 = RiskLevel.low ∧ riskLevelOf 15 = RiskLevel.medium ∧
    riskLevelOf 39 = RiskLevel.medium ∧ riskLevelOf 40 = RiskLevel.high := by
  refine ⟨fun rec driver now => rfl, fun s => ?_, by decide, by decide, by decide, by decide⟩
  unfold riskLevelOf
  split_ifs with h1 h2 <;> refine ⟨?_, ?_, ?_⟩ <;> simp <;> omega

/-- C2: evaluating isLicenceValid on a record whose expiry-date field is
present but unparseable (with a harmless status and no disqualifications)
returns true, i.e. the record is judged VALID: the catch branch meant to
treat unparseable expiry dates as invalid is unreachable, because an invalid
JS Date compares as NaN and never throws. -/
theorem isLicenceValid_unparseable_expiry_returns_valid :
    recC2.expiryDateField = some none ∧ isLicenceValid recC2 0 = true := by decide

/-- C3 (counterexample): adding the 9-point endorsement e0C3 to recBeforeC3
strictly DECREASES the risk score (75 to 35): the new most-recent endorsement
breaks the escalating-severity bonus (+25) and the behavioral-trend bonus
(+15) while adding nothing itself. -/
theorem score_not_monotone_counterexample :
    9 ≤ e0C3.penaltyPoints ∧
    recAfterC3 = { recBeforeC3 with endorsements := some [e1C3, e2C3, e3C3, e4C3, e0C3] } ∧
    (calculateRiskLevel recBeforeC3 (some drvC3) 0).score = 75 ∧
    (calculateRiskLevel recAfterC3 (some drvC3) 0).score = 35 ∧
    (calculateRiskLevel recAfterC3 (some drvC3) 0).score <
      (calculateRiskLevel recBeforeC3 (some drvC3) 0).score := by
  refine ⟨by decide, rfl, by decide, by decide, by decide⟩

/-- C3 (amended): adding one endorsement with at least 9 penalty points to a
record whose endorsement list is empty never decreases the score computed by
calculateRiskLevel, for every driver profile and evaluation time. -/
theorem score_monotone_adding_to_empty (rec : DVLAResponse) (driver : Option Driver) (now : Int)
    (e : Endorsement) (hpts : 9 ≤ e.penaltyPoints) (he : rec.endorsements.getD [] = []) :
    (calculateRiskLevel rec driver now).score ≤
      (calculateRiskLevel { rec with endorsements := some [e] } driver now).score := by
  have hgd : ({ rec with endorsements := some [e] } : DVLAResponse).endorsements.getD [] = [e] := rfl
  cases driver with
  | none =>
    simp only [calculateRiskLevel_score, riskContributions, hgd, he, List.foldl,
      Contribution.score_append, Contribution.score_empty, invalidC_set_endos, pointsC_set_endos,
      disqC_set_endos, cpcC_set_endos, professionalBaselineC_set_endos, restrictionsC_set_endos,
      timeWeightedC_nil, seriousC_nil, List.length_nil, List.length_cons, lt_irrefl,
      Nat.lt_irrefl, if_false, Nat.zero_lt_succ, if_true, Nat.lt_succ_self]
    simp only [Nat.zero_add, Nat.add_zero, show ¬(0 < 0) by omega, if_false,
      show (0 : Nat) < 0 + 1 by omega, if_true]
    omega
  | some d =>
    simp only [calculateRiskLevel_score, riskContributions, hgd, he, List.foldl,
      Contribution.score_append, Contribution.score_empty, invalidC_set_endos, pointsC_set_endos,
      disqC_set_endos, cpcC_set_endos, professionalBaselineC_set_endos, restrictionsC_set_endos,
      ageC_set_endos, categoryChangeC_set_endos,
      timeWeightedC_nil, seriousC_nil, List.length_nil, List.length_cons]
    simp only [Nat.zero_add, Nat.add_zero, show ¬(0 < 0) by omega, if_false,
      show (0 : Nat) < 0 + 1 by omega, if_true]
    omega

/-- Witness for the amended C3 theorem at a concrete empty record. -/
theorem score_monotone_adding_to_empty_witness :
    (calculateRiskLevel recC2 none 0).score ≤
      (calculateRiskLevel { recC2 with endorsements := some [e0C3] } none 0).score :=
  score_monotone_adding_to_empty recC2 none 0 e0C3 (by decide) rfl

/-- C4 (counterexample): the insurance code IN10 is outside the claimed
drink-drug/dangerous/death-by-careless set, yet an otherwise clean record
whose only endorsement carries IN10 scores exactly the +35 serious-offence
contribution. -/
theorem serious_offence_in10_counterexample :
    "IN10" ∈ seriousOffenceCodes ∧ "IN10" ∉ claimedSeriousCodes ∧
    (seriousC (recC4.endorsements.getD [])).score = 35 ∧
    (calculateRiskLevel recC4 none 0).score = 35 := by decide

/-- C4 (amended): the +35 serious-offence contribution fires exactly when some
endorsement code lies in the source's 25-code list, which is the claimed
drink-drug/dangerous/death-by-careless set PLUS the insurance,
construction-and-use, unauthorized-taking and failure-to-provide-information
codes. -/
theorem serious_offence_full_code_set :
    (∀ c : String, c ∈ seriousOffenceCodes ↔ c ∈ claimedSeriousCodes ∨ c ∈ extraSeriousCodes) ∧
    (∀ endos : List Endorsement,
      (seriousC endos).score =
        if endos.any (fun e => optMem e.code seriousOffenceCodes) then 35 else 0) := by
  constructor
  · have hperm : seriousOffenceCodes.Perm (claimedSeriousCodes ++ extraSeriousCodes) := by decide
    intro c
    rw [hperm.mem_iff, List.mem_append]
  · intro endos
    unfold seriousC
    split <;> rfl

theorem two_le_count_of_mem_aux (m : Nat) :
    ∀ (fuel : Nat) (l : List Int), ∀ cl ∈ findTemporalClustersAux m fuel l, 2 ≤ cl.count := by
  intro fuel
  induction fuel with
  | zero =>
    intro l cl hcl
    simp [findTemporalClustersAux] at hcl
  | succ n ih =>
    intro l cl hcl
    match l with
    | [] => simp [findTemporalClustersAux] at hcl
    | [x] => simp [findTemporalClustersAux] at hcl
    | s :: b :: rest =>
      rw [findTemporalClustersAux] at hcl
      by_cases h2 :
          2 ≤ ((b :: rest).takeWhile (fun d => decide ((s - d).natAbs ≤ m * 86400000))).length + 1
      · rw [if_pos h2] at hcl
        rcases List.mem_cons.mp hcl with h | h
        · rw [h]
          exact h2
        · exact ih _ cl h
      · rw [if_neg h2] at hcl
        exact ih _ cl hcl

theorem two_le_count_of_mem_findTemporalClusters (m : Nat) (l : List Int) :
    ∀ cl ∈ findTemporalClusters m l, 2 ≤ cl.count :=
  two_le_count_of_mem_aux m l.length l

theorem clusterFold_spec (cls : List Cluster) (acc : Contribution)
    (h : ∀ cl ∈ cls, 2 ≤ cl.count) :
    (cls.foldl clusterStep acc).score = acc.score + (cls.map (fun cl => 10 * cl.count)).sum ∧
    (cls.foldl clusterStep acc).factors =
      acc.factors ++ cls.map (fun cl => Factor.temporalCluster cl.count cl.daySpan) := by
  induction cls generalizing acc with
  | nil => simp
  | cons c cs ih =>
    have hc : 2 ≤ c.count := h c (List.mem_cons_self c cs)
    have hcs : ∀ cl ∈ cs, 2 ≤ cl.count := fun cl hcl => h cl (List.mem_cons_of_mem c hcl)
    rcases ih (clusterStep acc c) hcs with ⟨h1, h2⟩
    constructor
    · rw [List.foldl_cons, h1]
      simp [clusterStep, if_pos hc]
      omega
    · rw [List.foldl_cons, h2]
      simp [clusterStep, if_pos hc]

/-- C5: every cluster the scan emits has size at least 2; the clustering
contribution is exactly the sum of 10 times each cluster's size, with one
factor per cluster naming its size and day span; and on endorsements at
day 0, day 10 and day 200 the scan forms exactly one cluster of size 2
spanning 10 days (contributing +20), leaving the day-200 endorsement
unclustered. -/
theorem temporal_clustering_characterisation :
    (∀ (m : Nat) (l : List Int), ∀ cl ∈ findTemporalClusters m l, 2 ≤ cl.count) ∧
    (∀ sorted : List Endorsement,
      (clusterC sorted).score =
        ((findTemporalClusters 90 (sorted.map dateMs)).map (fun cl => 10 * cl.count)).sum ∧
      (clusterC sorted).factors =
        (findTemporalClusters 90 (sorted.map dateMs)).map
          (fun cl => Factor.temporalCluster cl.count cl.daySpan)) ∧
    findTemporalClusters 90 ((sortedEndorsements endosC5).map dateMs) = [⟨2, 10⟩] ∧
    (clusterC (sortedEndorsements endosC5)).score = 20 ∧
    (clusterC (sortedEndorsements endosC5)).factors = [Factor.temporalCluster 2 10] := by
  refine ⟨two_le_count_of_mem_findTemporalClusters, ?_, by decide, by decide, by decide⟩
  intro sorted
  have h := clusterFold_spec (findTemporalClusters 90 (sorted.map dateMs)) {}
    (two_le_count_of_mem_findTemporalClusters _ _)
  simpa [clusterC] using h

/-- Witness for C5, applying the general characterisation at the concrete
day-0/10/200 input. -/
theorem temporal_clustering_characterisation_witness :
    2 ≤ (Cluster.mk 2 10).count ∧
    (clusterC (sortedEndorsements endosC5)).score =
      ((findTemporalClusters 90 ((sortedEndorsements endosC5).map dateMs)).map
        (fun cl => 10 * cl.count)).sum :=
  ⟨temporal_clustering_characterisation.1 90 ((sortedEndorsements endosC5).map dateMs) ⟨2, 10⟩
      (by decide),
   (temporal_clustering_characterisation.2.1 (sortedEndorsements endosC5)).1⟩

/-- C6: whenever the date-sorted endorsement list has at least three entries,
the escalation contribution is +25 exactly when severity strictly increases
from the oldest to the newest of the three most recent endorsements; on
severities 1, 2, 4 (oldest to newest) the bonus fires, on 4, 2, 1 it does
not. -/
theorem escalating_severity_characterisation :
    (∀ (endos : List Endorsement) (x y z : Endorsement) (rest : List Endorsement),
      sortedEndorsements endos = x :: y :: z :: rest →
      (escalationC (sortedEndorsements endos)).score =
        if getSeverityLevel z.code < getSeverityLevel y.code ∧
           getSeverityLevel y.code < getSeverityLevel x.code then 25 else 0) ∧
    (escalationC (sortedEndorsements endosUpC6)).score = 25 ∧
    (escalationC (sortedEndorsements endosDownC6)).score = 0 := by
  refine ⟨?_, by decide, by decide⟩
  intro endos x y z rest hs
  rw [hs]
  unfold escalationC
  split <;> try simp_all
  all_goals split <;> rfl

/-- Witness for C6, applying the general characterisation to the concrete
1-2-4 severity chain. -/
theorem escalating_severity_characterisation_witness :
    (escalationC (sortedEndorsements endosUpC6)).score =
      if getSeverityLevel (some "SP30") < getSeverityLevel (some "SP50") ∧
         getSeverityLevel (some "SP50") < getSeverityLevel (some "DR10") then 25 else 0 :=
  escalating_severity_characterisation.1 endosUpC6
    ⟨some "DR10", some 300, 3⟩ ⟨some "SP50", some 200, 3⟩ ⟨some "SP30", some 100, 3⟩ []
    (by decide)

/-- C7: for every record and every driver profile whose licence issue date is
less than 730 days before the evaluation time, if the response carries at
least 6 penalty points then the new-driver rule contributes exactly +15 with
its factor and recommendation, both of which appear in the full
calculateRiskLevel output, irrespective of the driver's other attributes. -/
theorem new_driver_rule_fires (rec : DVLAResponse) (d : Driver) (now li : Int)
    (hli : d.licenceIssueDate = some li)
    (hdays : (now - li).ediv msPerDay < 730)
    (hpts : 6 ≤ rec.penaltyPoints.getD 0) :
    newDriverC rec d now =
      ⟨15, [Factor.newDriver (rec.penaltyPoints.getD 0)], [Recomm.newDriverRisk]⟩ ∧
    Factor.newDriver (rec.penaltyPoints.getD 0) ∈ (calculateRiskLevel rec (some d) now).factors ∧
    Recomm.newDriverRisk ∈ (calculateRiskLevel rec (some d) now).recommendations := by
  have h1 : newDriverC rec d now =
      ⟨15, [Factor.newDriver (rec.penaltyPoints.getD 0)], [Recomm.newDriverRisk]⟩ := by
    unfold newDriverC
    rw [hli]
    simp only [if_pos (And.intro hdays hpts)]
  have hf : Factor.newDriver (rec.penaltyPoints.getD 0) ∈ (ageC rec d now).factors := by
    unfold ageC
    rw [Contribution.factors_append, h1]
    simp
  have hr : Recomm.newDriverRisk ∈ (ageC rec d now).recs := by
    unfold ageC
    rw [Contribution.recs_append, h1]
    simp
  refine ⟨h1, ?_, ?_⟩
  · show Factor.newDriver (rec.penaltyPoints.getD 0) ∈
      ((riskContributions rec (some d) now).foldl Contribution.append {}).factors
    simp only [riskContributions, List.foldl, Contribution.factors_append,
      Contribution.factors_empty, List.mem_append, List.nil_append]
    tauto
  · show Recomm.newDriverRisk ∈
      ((riskContributions rec (some d) now).foldl Contribution.append {}).recs
    simp only [riskContributions, List.foldl, Contribution.recs_append,
      Contribution.recs_empty, List.mem_append, List.nil_append]
    tauto

/-- Witness for C7 at a driver whose licence was issued at the evaluation
instant and a record carrying exactly 6 points. -/
theorem new_driver_rule_fires_witness :
    newDriverC recC7 drvC7 0 = ⟨15, [Factor.newDriver 6], [Recomm.newDriverRisk]⟩ ∧
    Factor.newDriver 6 ∈ (calculateRiskLevel recC7 (some drvC7) 0).factors ∧
    Recomm.newDriverRisk ∈ (calculateRiskLevel recC7 (some drvC7) 0).recommendations :=
  new_driver_rule_fires recC7 drvC7 0 0 rfl (by decide) (by decide)

theorem professionalBaselineC_score_cases (rec : DVLAResponse) :
    (professionalBaselineC rec).score = 0 ∨ (professionalBaselineC rec).score = 5 := by
  unfold professionalBaselineC
  rcases hc : rec.categories with _ | cats
  · simp only [hc]
    rcases hee : rec.entitlement with _ | ents
    · simp only [hee]
      left
      trivial
    · simp only [hee]
      by_cases hh : 0 < (ents.filter (fun c => optMem c.categoryCode profCategoryCodes)).length
      · simp only [if_pos hh]
        right
        trivial
      · simp only [if_neg hh]
        left
        trivial
  · simp only [hc]
    by_cases hh :
        0 < (cats.filter (fun c => optMem (jsOrStr c.code c.categoryCode) profCategoryCodes)).length
    · simp only [if_pos hh]
      right
      trivial
    · simp only [if_neg hh]
      left
      trivial

theorem disqC_of_getD_nil (rec : DVLAResponse) (now : Int)
    (h : rec.disqualifications.getD [] = []) : disqC rec now = {} := by
  unfold disqC
  rcases hd : rec.disqualifications with _ | l
  · rfl
  · rw [hd] at h
    simp only [Option.getD_some] at h
    subst h
    rfl

theorem restrictionsC_of_getD_nil (rec : DVLAResponse)
    (h : rec.restrictions.getD [] = []) : restrictionsC rec = {} := by
  unfold restrictionsC
  rcases hr : rec.restrictions with _ | l
  · rfl
  · rw [hr] at h
    simp only [Option.getD_some] at h
    subst h
    rfl

theorem isLicenceValid_of_benign (rec : DVLAResponse) (now t : Int)
    (hx : rec.expiryDateField = some (some t)) (hfut : now < t)
    (hs : rec.statusCode ∉ invalidStatusCodes)
    (hd : rec.disqualifications.getD [] = []) :
    isLicenceValid rec now = true := by
  unfold isLicenceValid
  rw [hx]
  simp only [jsDateLt, show ¬(t < now) by omega, decide_False, Bool.false_eq_true, if_false,
    if_neg hs]
  rcases hdq : rec.disqualifications with _ | l
  · rfl
  · rw [hdq] at hd
    simp only [Option.getD_some] at hd
    subst hd
    rfl

/-- C8 (counterexample): recC8 satisfies every record-side condition of the
claim (empty collections, future expiry, non-revoked status), yet with a
70-year-old driver lacking a medical record its score is 70 and its tier is
high, because the claim leaves the response's top-level penalty points (9
here, +30), the CPC details (expired here, +20) and the driver profile
(no medical on record at age 70, +20) unconstrained. -/
theorem benign_record_score_counterexample :
    recC8.endorsements.getD [] = [] ∧ recC8.disqualifications.getD [] = [] ∧
    recC8.restrictions.getD [] = [] ∧
    recC8.expiryDateField = some (some 10000000000000) ∧ (0 : Int) < 10000000000000 ∧
    recC8.statusCode ∉ invalidStatusCodes ∧
    (calculateRiskLevel recC8 (some drvC8) 0).score = 70 ∧
    ¬((calculateRiskLevel recC8 (some drvC8) 0).score = 0 ∨
      (calculateRiskLevel recC8 (some drvC8) 0).score = 5) ∧
    (calculateRiskLevel recC8 (some drvC8) 0).level ≠ RiskLevel.low := by decide

/-- C8 (amended): a record with empty (or absent) endorsements,
disqualifications and restrictions, a future expiry date, a status code
outside the invalid set, fewer than 3 top-level penalty points and no CPC
details, evaluated with no driver profile, scores exactly the professional
baseline (0, or 5 when professional categories are present) and lands in the
low tier; absent optional collections contribute zero score. -/
theorem benign_record_score_zero_or_five (rec : DVLAResponse) (now t : Int)
    (he : rec.endorsements.getD [] = [])
    (hd : rec.disqualifications.getD [] = [])
    (hr : rec.restrictions.getD [] = [])
    (hx : rec.expiryDateField = some (some t)) (hfut : now < t)
    (hs : rec.statusCode ∉ invalidStatusCodes)
    (hp : rec.penaltyPoints.getD 0 < 3)
    (hc : rec.cpcDetails = none) :
    (calculateRiskLevel rec none now).score = (professionalBaselineC rec).score ∧
    ((professionalBaselineC rec).score = 0 ∨ (professionalBaselineC rec).score = 5) ∧
    (calculateRiskLevel rec none now).level = RiskLevel.low := by
  have hv : isLicenceValid rec now = true := isLicenceValid_of_benign rec now t hx hfut hs hd
  have h1 : invalidC rec now = {} := by
    simp [invalidC, hv]
  have h2 : pointsC rec = {} := by
    simp only [pointsC]
    split_ifs with a b c <;> first | omega | rfl
  have h5 : disqC rec now = {} := disqC_of_getD_nil rec now hd
  have h6 : cpcC rec now = {} := by
    unfold cpcC
    rw [hc]
  have h11 : restrictionsC rec = {} := restrictionsC_of_getD_nil rec hr
  have hsc : (calculateRiskLevel rec none now).score = (professionalBaselineC rec).score := by
    rw [calculateRiskLevel_score]
    simp only [riskContributions, he, List.foldl, h1, h2, timeWeightedC_nil, seriousC_nil,
      h5, h6, h11, Contribution.score_append, Contribution.score_empty, List.length_nil]
    simp
  refine ⟨hsc, professionalBaselineC_score_cases rec, ?_⟩
  have hl : (calculateRiskLevel rec none now).level =
      riskLevelOf (calculateRiskLevel rec none now).score := rfl
  rw [hl, hsc]
  rcases professionalBaselineC_score_cases rec with h | h <;> rw [h] <;> rfl

/-- Witness for the amended C8 theorem at a concrete fully benign record. -/
theorem benign_record_score_zero_or_five_witness :
    (calculateRiskLevel recC8w none 0).score = (professionalBaselineC recC8w).score ∧
    ((professionalBaselineC recC8w).score = 0 ∨ (professionalBaselineC recC8w).score = 5) ∧
    (calculateRiskLevel recC8w none 0).level = RiskLevel.low :=
  benign_record_score_zero_or_five recC8w 0 1 rfl rfl rfl rfl (by decide) (by decide)
    (by decide) rfl

theorem downgradeChecks_ne_nil_of (pp cur : List String) (trailer base : String)
    (hpair : (trailer, base) ∈ [("CE", "C"), ("C1E", "C1"), ("DE", "D"), ("D1E", "D1")])
    (hp : trailer ∈ pp) (hm : trailer ∉ cur) (hb : base ∈ cur) :
    downgradeChecks pp cur ≠ [] := by
  simp only [List.mem_cons, List.not_mem_nil, or_false] at hpair
  rcases hpair with h | h | h | h <;> (rw [Prod.mk.injEq] at h; obtain ⟨rfl, rfl⟩ := h)
  · apply List.ne_nil_of_mem (a := Downgrade.ceToC)
    simp only [downgradeChecks, List.mem_append]
    left; left; left
    rw [if_pos (show "CE" ∈ pp ∧ "CE" ∉ cur ∧ "C" ∈ cur from ⟨hp, hm, hb⟩)]
    simp
  · apply List.ne_nil_of_mem (a := Downgrade.c1eToC1)
    simp only [downgradeChecks, List.mem_append]
    left; left; right
    rw [if_pos (show "C1E" ∈ pp ∧ "C1E" ∉ cur ∧ "C1" ∈ cur from ⟨hp, hm, hb⟩)]
    simp
  · apply List.ne_nil_of_mem (a := Downgrade.deToD)
    simp only [downgradeChecks, List.mem_append]
    left; right
    rw [if_pos (show "DE" ∈ pp ∧ "DE" ∉ cur ∧ "D" ∈ cur from ⟨hp, hm, hb⟩)]
    simp
  · apply List.ne_nil_of_mem (a := Downgrade.d1eToD1)
    simp only [downgradeChecks, List.mem_append]
    right
    rw [if_pos (show "D1E" ∈ pp ∧ "D1E" ∉ cur ∧ "D1" ∈ cur from ⟨hp, hm, hb⟩)]
    simp

/-- C9: whenever the driver's previously-recorded professional categories
include a trailer category whose base category is currently held while the
trailer category itself is not, the lost-category rule contributes +30 AND
the trailer-downgrade rule contributes +20 for the same change, so the
category-change block scores at least 50: the two rules are not mutually
exclusive. -/
theorem lost_and_downgrade_both_fire (rec : DVLAResponse) (d : Driver) (now : Int)
    (prev : List String) (trailer base : String)
    (hl : d.licenceCategories = some prev)
    (hpair : (trailer, base) ∈ [("CE", "C"), ("C1E", "C1"), ("DE", "D"), ("D1E", "D1")])
    (hprev : trailer ∈ prev)
    (hmiss : trailer ∉ currentProfessionalCats rec)
    (hbase : base ∈ currentProfessionalCats rec) :
    (lostC prev (currentProfessionalCats rec)).score = 30 ∧
    (downgradeC prev (currentProfessionalCats rec)).score = 20 ∧
    50 ≤ (categoryChangeC rec d now).score := by
  have hpcc : trailer ∈ profCategoryCodes := by
    simp only [List.mem_cons, List.not_mem_nil, or_false] at hpair
    rcases hpair with h | h | h | h <;> (rw [Prod.mk.injEq] at h; obtain ⟨rfl, -⟩ := h) <;> decide
  have hpp : trailer ∈ prevProfessionalCats prev := by
    simp only [prevProfessionalCats, List.mem_filter, decide_eq_true_eq]
    exact ⟨hprev, hpcc⟩
  have htl : trailer ∈ lostList prev (currentProfessionalCats rec) := by
    simp only [lostList, List.mem_filter, decide_eq_true_eq]
    exact ⟨hpp, hmiss⟩
  have hlost : (lostC prev (currentProfessionalCats rec)).score = 30 := by
    unfold lostC
    rw [if_pos (List.length_pos.mpr (List.ne_nil_of_mem htl))]
  have hne : downgradeChecks (prevProfessionalCats prev) (currentProfessionalCats rec) ≠ [] :=
    downgradeChecks_ne_nil_of _ _ trailer base hpair hpp hmiss hbase
  have hdown : (downgradeC prev (currentProfessionalCats rec)).score = 20 := by
    simp only [downgradeC]
    rw [if_pos (List.length_pos.mpr hne)]
  refine ⟨hlost, hdown, ?_⟩
  simp only [categoryChangeC, hl, Contribution.score_append]
  rw [hlost, hdown]
  omega

/-- Witness for C9 with prior categories CE and C and a current record holding
only C. -/
theorem lost_and_downgrade_both_fire_witness :
    (lostC ["CE", "C"] (currentProfessionalCats recC9)).score = 30 ∧
    (downgradeC ["CE", "C"] (currentProfessionalCats recC9)).score = 20 ∧
    50 ≤ (categoryChangeC recC9 drvC9 0).score :=
  lost_and_downgrade_both_fire recC9 drvC9 0 ["CE", "C"] "CE" "C" rfl (by decide) (by decide)
    (by decide) (by decide)

/-- C10: when every category entry of the record carries its code only under
the legacy `code` field (no `categoryCode`), the professional baseline still
recognises the record as professional (+5), but the current-category set used
by the lost-category comparison comes out empty, so every previously-recorded
professional category is reported as lost (+30) even though the record still
contains each of them under `code`. -/
theorem code_only_categories_reported_lost (rec : DVLAResponse) (d : Driver)
    (cats : List Category) (prev : List String)
    (hcats : rec.categories = some cats)
    (hnocc : ∀ c ∈ cats, c.categoryCode = none)
    (hl : d.licenceCategories = some prev)
    (hheld : ∀ s ∈ prevProfessionalCats prev, ∃ c ∈ cats, c.code = some s)
    (hne : prevProfessionalCats prev ≠ []) :
    (professionalBaselineC rec).score = 5 ∧
    currentProfessionalCats rec = [] ∧
    lostList prev (currentProfessionalCats rec) = prevProfessionalCats prev ∧
    (lostC prev (currentProfessionalCats rec)).score = 30 := by
  have hcur : currentProfessionalCats rec = [] := by
    simp only [currentProfessionalCats, hcats, profCatsFrom, List.filterMap_eq_nil_iff]
    intro c hc
    rw [hnocc c hc]
  obtain ⟨s0, hs0⟩ := List.exists_mem_of_ne_nil _ hne
  have hs0p : s0 ∈ profCategoryCodes := by
    have := (List.mem_filter.mp hs0).2
    simpa using this
  obtain ⟨c0, hc0mem, hc0code⟩ := hheld s0 hs0
  have hbase : (professionalBaselineC rec).score = 5 := by
    simp only [professionalBaselineC, hcats]
    rw [if_pos]
    apply List.length_pos.mpr
    apply List.ne_nil_of_mem (a := c0)
    apply List.mem_filter.mpr
    refine ⟨hc0mem, ?_⟩
    rw [hc0code]
    have hnz : ¬s0 = "" := by
      intro h
      rw [h] at hs0p
      revert hs0p
      decide
    simp [jsOrStr, optMem, hnz, hs0p]
  have hll : lostList prev (currentProfessionalCats rec) = prevProfessionalCats prev := by
    rw [hcur]
    unfold lostList
    apply List.filter_eq_self.mpr
    intro a ha
    simp
  have hlost : (lostC prev (currentProfessionalCats rec)).score = 30 := by
    unfold lostC
    rw [if_pos]
    rw [hll]
    exact List.length_pos.mpr hne
  exact ⟨hbase, hcur, hll, hlost⟩

/-- Witness for C10: a record holding professional category C only under the
legacy `code` field, a driver previously recorded with C. -/
theorem code_only_categories_reported_lost_witness :
    (professionalBaselineC recC10).score = 5 ∧
    currentProfessionalCats recC10 = [] ∧
    lostList ["C"] (currentProfessionalCats recC10) = prevProfessionalCats ["C"] ∧
    (lostC ["C"] (currentProfessionalCats recC10)).score = 30 :=
  code_only_categories_reported_lost recC10 drvC10 [catC10] ["C"] rfl (by decide) rfl
    (by decide) (by decide)

end DVLA
